import Mathlib

/-!
# AI Insight API — verification of the request validation and normalization pipeline

Shallow embedding of the pure core of `src/main.py` and `src/models.py`:
payload validation (pydantic models), image magic-byte sniffing, base64
data-URL encoding, and upstream-response normalization. Bytes are modelled
as `List Nat` with values `< 256`; the upstream completion call is a
function parameter so that route handlers stay pure.
-/

namespace AIInsight

/-! ## Base64 (Python `base64.b64encode` / `b64decode`, RFC 4648 alphabet) -/

/-- The standard base64 alphabet, in index order. -/
def b64Chars : List Char :=
  ['A','B','C','D','E','F','G','H','I','J','K','L','M',
   'N','O','P','Q','R','S','T','U','V','W','X','Y','Z',
   'a','b','c','d','e','f','g','h','i','j','k','l','m',
   'n','o','p','q','r','s','t','u','v','w','x','y','z',
   '0','1','2','3','4','5','6','7','8','9','+','/']

/-- Character for a 6-bit group. -/
def encodeSextet (n : Nat) : Char := b64Chars.getD n 'A'

/-- Index of a base64 character, `none` for characters outside the alphabet. -/
def decodeSextet (c : Char) : Option Nat := b64Chars.indexOf? c

/-- `base64.b64encode`: bytes to characters, 3 bytes per 4 characters,
`=`-padded. -/
def b64encodeChars : List Nat → List Char
  | [] => []
  | [a] => [encodeSextet (a / 4), encodeSextet (a % 4 * 16), '=', '=']
  | [a, b] =>
      [encodeSextet (a / 4), encodeSextet (a % 4 * 16 + b / 16),
       encodeSextet (b % 16 * 4), '=']
  | a :: b :: c :: rest =>
      encodeSextet (a / 4) :: encodeSextet (a % 4 * 16 + b / 16) ::
      encodeSextet (b % 16 * 4 + c / 64) :: encodeSextet (c % 64) ::
      b64encodeChars rest

/-- Decode one 4-character base64 group, honouring `=` padding. -/
def decodeQuad (c1 c2 c3 c4 : Char) : Option (List Nat) := do
  let s1 ← decodeSextet c1
  let s2 ← decodeSextet c2
  if c3 = '=' then
    if c4 = '=' then some [s1 * 4 + s2 / 16] else none
  else do
    let s3 ← decodeSextet c3
    if c4 = '=' then
      some [s1 * 4 + s2 / 16, s2 % 16 * 16 + s3 / 4]
    else do
      let s4 ← decodeSextet c4
      some [s1 * 4 + s2 / 16, s2 % 16 * 16 + s3 / 4, s3 % 4 * 64 + s4]

/-- `base64.b64decode` on well-formed input: groups of 4 characters. -/
def b64decodeChars : List Char → Option (List Nat)
  | [] => some []
  | c1 :: c2 :: c3 :: c4 :: rest => do
      let front ← decodeQuad c1 c2 c3 c4
      let tail ← b64decodeChars rest
      some (front ++ tail)
  | _ => none

theorem decodeSextet_encodeSextet {n : Nat} (h : n < 64) :
    decodeSextet (encodeSextet n) = some n := by
  revert h
  revert n
  decide

theorem encodeSextet_ne_pad (n : Nat) : encodeSextet n ≠ '=' := by
  by_cases h : n < 64
  · revert h; revert n; decide
  · unfold encodeSextet
    rw [List.getD_eq_default]
    · decide
    · simp only [b64Chars, List.length]
      omega

/-- Decoding the canonical encoding of a byte list returns the bytes. -/
theorem b64decode_b64encode :
    ∀ bs : List Nat, (∀ x ∈ bs, x < 256) →
      b64decodeChars (b64encodeChars bs) = some bs
  | [], _ => rfl
  | [a], h => by
      have ha : a < 256 := h a (by simp)
      simp [b64encodeChars, b64decodeChars, decodeQuad,
        decodeSextet_encodeSextet (show a / 4 < 64 by omega),
        decodeSextet_encodeSextet (show a % 4 * 16 < 64 by omega)]
      omega
  | [a, b], h => by
      have ha : a < 256 := h a (by simp)
      have hb : b < 256 := h b (by simp)
      simp [b64encodeChars, b64decodeChars, decodeQuad, encodeSextet_ne_pad,
        decodeSextet_encodeSextet (show a / 4 < 64 by omega),
        decodeSextet_encodeSextet (show a % 4 * 16 + b / 16 < 64 by omega),
        decodeSextet_encodeSextet (show b % 16 * 4 < 64 by omega)]
      omega
  | a :: b :: c :: rest, h => by
      have ha : a < 256 := h a (by simp)
      have hb : b < 256 := h b (by simp)
      have hc : c < 256 := h c (by simp)
      have ih := b64decode_b64encode rest (fun x hx => h x (by simp [hx]))
      simp [b64encodeChars, b64decodeChars, decodeQuad, encodeSextet_ne_pad, ih,
        decodeSextet_encodeSextet (show a / 4 < 64 by omega),
        decodeSextet_encodeSextet (show a % 4 * 16 + b / 16 < 64 by omega),
        decodeSextet_encodeSextet (show b % 16 * 4 + c / 64 < 64 by omega),
        decodeSextet_encodeSextet (show c % 64 < 64 by omega)]
      omega

/-! ## Error shapes

`RouteError.validation` stands for a pydantic `ValidationError` (mapped to
HTTP 422 by the app's exception handler); `RouteError.http s d` stands for
`HTTPException(status_code=s, detail=d)`. Detail strings for validation
errors abbreviate pydantic's generated messages. -/

inductive RouteError where
  | validation (detail : String)
  | http (status : Nat) (detail : String)
deriving DecidableEq, Repr

/-! ## Image sniffing and ingestion (`analyze_file` in `src/main.py`) -/

/-- JPEG magic bytes `FF D8 FF`. -/
def jpegSig : List Nat := [0xff, 0xd8, 0xff]

/-- PNG magic bytes `89 50 4E 47 0D 0A 1A 0A`. -/
def pngSig : List Nat := [0x89, 0x50, 0x4e, 0x47, 0x0d, 0x0a, 0x1a, 0x0a]

/-- ASCII `RIFF`. -/
def riffSig : List Nat := [0x52, 0x49, 0x46, 0x46]

/-- ASCII `WEBP`. -/
def webpTag : List Nat := [0x57, 0x45, 0x42, 0x50]

/-- `detect_image_type` from `src/main.py`: magic-byte sniffing.
`data[8:12] == b'WEBP'` is Python slicing, which truncates on short
buffers; `(data.drop 8).take 4` does the same. -/
def detect_image_type (data : List Nat) : Option String :=
  if jpegSig <+: data then some "jpeg"
  else if pngSig <+: data then some "png"
  else if riffSig <+: data ∧ (data.drop 8).take 4 = webpTag then some "webp"
  else none

/-- `MAX_BYTES = 5 * 1024 * 1024` from `analyze_file`. -/
def MAX_BYTES : Nat := 5 * 1024 * 1024

/-- The `ok_types` dict lookup from `analyze_file`. -/
def ok_types (ct : String) : Option String :=
  if ct = "image/jpeg" then some "jpeg"
  else if ct = "image/png" then some "png"
  else if ct = "image/webp" then some "webp"
  else none

/-- Python `str.lower()` on one ASCII character (media-type strings are
ASCII). -/
def pyLowerChar (c : Char) : Char :=
  if 'A' ≤ c ∧ c ≤ 'Z' then Char.ofNat (c.toNat + 32) else c

/-- Python `str.lower()` as applied to media-type strings. -/
def pyLower (s : String) : String := String.mk (s.data.map pyLowerChar)

/-- `base64.b64encode(content).decode("utf-8")`. -/
def b64encode (content : List Nat) : String := String.mk (b64encodeChars content)

/-- The f-string `f"data:image/{ext};base64,{b64}"` from `analyze_file`. -/
def data_url (ext : String) (content : List Nat) : String :=
  "data:image/" ++ ext ++ ";base64," ++ b64encode content

/-- The pure ingestion prefix of `analyze_file`: size check, sniffing,
declared-content-type fallback (`ct = (file.content_type or "").lower()`),
acceptability check, and data-URL encoding. Returns the resolved extension
together with the data URL. -/
def ingest (content : List Nat) (content_type : Option String) :
    Except RouteError (String × String) :=
  if content.length > MAX_BYTES then
    .error (.http 413 "Image too large (max 5MB).")
  else
    let detected := detect_image_type content
    let ct := pyLower (content_type.getD "")
    let ext : Option String :=
      match detected with
      | some d => some d
      | none => ok_types ct
    match ext with
    | some e =>
        if e = "jpeg" ∨ e = "png" ∨ e = "webp" then
          .ok (e, data_url e content)
        else
          .error (.http 415 "Unsupported image type. Use jpg, png, or webp.")
    | none => .error (.http 415 "Unsupported image type. Use jpg, png, or webp.")

/-! ## Request models (`src/models.py`, `PromptRequest` in `src/main.py`)

pydantic models become structures with an explicit `validate` smart
constructor running the field checks in declaration order (pydantic
aggregates per-field errors; `Except` surfaces the first, which is
equivalent for "construction fails" claims). Temperatures are embedded as
rationals: the only float operations in the source are exact order
comparisons against 0 and 1. -/

/-- Python whitespace for `str.strip()` (ASCII range). -/
def pyIsSpace (c : Char) : Bool :=
  c = ' ' || c = '\t' || c = '\n' || c = '\r' ||
    c = Char.ofNat 11 || c = Char.ofNat 12

/-- Python `str.strip()`: drop leading and trailing whitespace. -/
def pyStrip (s : String) : String :=
  String.mk (((s.data.dropWhile pyIsSpace).reverse.dropWhile pyIsSpace).reverse)

/-- Embeds pydantic `AnyHttpUrl` (third-party, not in `src/`): a
well-formed URL whose scheme is `http` or `https`, with a nonempty host. -/
def isAnyHttpUrl (s : String) : Bool :=
  let check (pre : List Char) : Bool :=
    pre.isPrefixOf s.data &&
      !((s.data.drop pre.length).takeWhile
          (fun c => c ≠ '/' && c ≠ ':' && c ≠ '?' && c ≠ '#')).isEmpty
  check "http://".data || check "https://".data

/-- `ImageUrlPayload` from `src/models.py` (validated form). -/
structure ImageUrlPayload where
  image_url : String
  prompt : String
  model : String
  temperature : ℚ
deriving DecidableEq, Repr

/-- Construction of `ImageUrlPayload`: `image_url: AnyHttpUrl`,
`prompt` with `min_length=1` then the `_trim_prompt` validator
(strip, reject empty), `model: Literal["gpt-4o", "gpt-4o-mini"]`,
`temperature: ge=0.0, le=1.0`. -/
def ImageUrlPayload.validate (image_url prompt model : String)
    (temperature : ℚ) : Except RouteError ImageUrlPayload :=
  if ¬ isAnyHttpUrl image_url then
    .error (.validation "image_url: URL scheme should be http or https")
  else if prompt.length < 1 then
    .error (.validation "prompt: String should have at least 1 character")
  else if pyStrip prompt = "" then
    .error (.validation "prompt: Prompt cannot be empty after trimming.")
  else if ¬ (model = "gpt-4o" ∨ model = "gpt-4o-mini") then
    .error (.validation "model: Input should be gpt-4o or gpt-4o-mini")
  else if ¬ (0 ≤ temperature ∧ temperature ≤ 1) then
    .error (.validation "temperature: Input should be in [0, 1]")
  else
    .ok ⟨image_url, pyStrip prompt, model, temperature⟩

/-- `ImageFilePayload` from `src/models.py` (validated form). Declared for
use alongside upload fields, but the `/analyze-file` route does not use
it. -/
structure ImageFilePayload where
  prompt : String
  model : String
  temperature : ℚ
deriving DecidableEq, Repr

/-- Construction of `ImageFilePayload`: `prompt` with `min_length=1` then
the `_trim_prompt` validator, `model: Literal["gpt-4o", "gpt-4o-mini"]`,
`temperature: ge=0.0, le=1.0`. -/
def ImageFilePayload.validate (prompt model : String) (temperature : ℚ) :
    Except RouteError ImageFilePayload :=
  if prompt.length < 1 then
    .error (.validation "prompt: String should have at least 1 character")
  else if pyStrip prompt = "" then
    .error (.validation "prompt: Prompt cannot be empty after trimming.")
  else if ¬ (model = "gpt-4o" ∨ model = "gpt-4o-mini") then
    .error (.validation "model: Input should be gpt-4o or gpt-4o-mini")
  else if ¬ (0 ≤ temperature ∧ temperature ≤ 1) then
    .error (.validation "temperature: Input should be in [0, 1]")
  else
    .ok ⟨pyStrip prompt, model, temperature⟩

/-- `PromptRequest` from `src/main.py` (validated form). -/
structure PromptRequest where
  prompt : String
  model : String
  temperature : ℚ
deriving DecidableEq, Repr

/-- Construction of `PromptRequest`: `prompt: str` carries no constraint
in the source, `model: Literal["gpt-4o-mini", "gpt-4-turbo"]`,
`temperature: Field(0.3, ge=0, le=1)`. -/
def PromptRequest.validate (prompt model : String) (temperature : ℚ) :
    Except RouteError PromptRequest :=
  if ¬ (model = "gpt-4o-mini" ∨ model = "gpt-4-turbo") then
    .error (.validation "model: Input should be gpt-4o-mini or gpt-4-turbo")
  else if ¬ (0 ≤ temperature ∧ temperature ≤ 1) then
    .error (.validation "temperature: Input should be in [0, 1]")
  else
    .ok ⟨prompt, model, temperature⟩

/-! ## Response model (`src/models.py`) -/

/-- `DetectedEntity` from `src/models.py` (validated form). -/
structure DetectedEntity where
  label : String
  confidence : Option ℚ
deriving DecidableEq, Repr

/-- `ImageInsightResponse` from `src/models.py` (validated form). -/
structure ImageInsightResponse where
  summary : String
  entities : List DetectedEntity
  text_in_image : Option String
  model_used : String
  tokens_used : Option Int
deriving DecidableEq, Repr

/-- The condition of the `_ensure_non_empty_content` model validator:
`has_summary or has_text`, where `has_summary` is a non-empty stripped
summary and `has_text` a present, non-empty stripped `text_in_image`. -/
def has_content (summary : String) (text_in_image : Option String) : Bool :=
  (pyStrip summary != "") ||
    (match text_in_image with
     | some t => pyStrip t != ""
     | none => false)

/-- Construction of `ImageInsightResponse`: field checks
(`summary: min_length=1`, `tokens_used: ge=0`) in declaration order, then
the `_ensure_non_empty_content` model validator: a non-empty (after
strip) `summary` or `text_in_image` is required. -/
def ImageInsightResponse.validate (summary : String)
    (entities : List DetectedEntity) (text_in_image : Option String)
    (model_used : String) (tokens_used : Option Int) :
    Except RouteError ImageInsightResponse :=
  if summary.length < 1 then
    .error (.validation "summary: String should have at least 1 character")
  else if ¬ (∀ n ∈ tokens_used, 0 ≤ n) then
    .error (.validation "tokens_used: Input should be greater than or equal to 0")
  else if ¬ has_content summary text_in_image then
    .error (.validation
      "Response must contain a non-empty summary or text_in_image.")
  else
    .ok ⟨summary, entities, text_in_image, model_used, tokens_used⟩

/-! ## Upstream call results and route handlers (`src/main.py`)

The remote completion call (`client.chat.completions.create`) is passed to
each handler as a function of the arguments the handler varies (model,
prompt, image URL or data URL, temperature), returning either the raw
result shape the handlers read (`choices[0].message.content`,
`usage.total_tokens`) or an exception message. Python's `try`/`except`
around the call and result handling becomes `Except` plumbing, with every
error mapped to `HTTPException(500, str(e))`. -/

/-- Token usage as the handlers read it: `usage.total_tokens`. -/
structure ChatUsage where
  total_tokens : Int
deriving DecidableEq, Repr

/-- One completion choice as the handlers read it: `message.content`. -/
structure ChatChoice where
  content : String
deriving DecidableEq, Repr

/-- The raw upstream result shape the handlers read. -/
structure ChatResult where
  choices : List ChatChoice
  usage : Option ChatUsage
deriving DecidableEq, Repr

/-- `result.choices[0].message.content`: Python list indexing raises
`IndexError` on an empty list, which the surrounding `except` turns into
an error. -/
def firstChoiceContent (result : ChatResult) : Except String String :=
  match result.choices with
  | [] => .error "list index out of range"
  | choice :: _ => .ok choice.content

/-- `result.usage.total_tokens if result.usage else None`. -/
def usageTokens (result : ChatResult) : Option Int :=
  result.usage.map (fun u => u.total_tokens)

/-- The shared normalization block of `analyze_image` and `analyze_file`:
first choice's text as `summary`, empty `entities`, `text_in_image=None`,
the request's model, and the reported token usage. -/
def normalizeInsight (model : String) (result : ChatResult) :
    Except RouteError ImageInsightResponse := do
  match firstChoiceContent result with
  | .error e => .error (.http 500 e)
  | .ok message =>
    match ImageInsightResponse.validate message [] none model
        (usageTokens result) with
    | .error err =>
        match err with
        | .validation d => .error (.http 500 d)
        | e => .error e
    | .ok resp => .ok resp

/-- The success body of the `/analyze` route (latency, a wall-clock
quantity, is omitted). -/
structure AnalyzeReply where
  response : String
  model : String
  tokens_used : Option Int
deriving DecidableEq, Repr

/-- The `/analyze` route handler on a validated `PromptRequest`. -/
def analyze (req : PromptRequest)
    (upstream : String → String → ℚ → Except String ChatResult) :
    Except RouteError AnalyzeReply :=
  match upstream req.model req.prompt req.temperature with
  | .error e => .error (.http 500 e)
  | .ok result =>
    match firstChoiceContent result with
    | .error e => .error (.http 500 e)
    | .ok message => .ok ⟨message, req.model, usageTokens result⟩

/-- The `/analyze-image` route handler on a validated `ImageUrlPayload`. -/
def analyze_image (req : ImageUrlPayload)
    (upstream : String → String → String → ℚ → Except String ChatResult) :
    Except RouteError ImageInsightResponse :=
  match upstream req.model req.prompt req.image_url req.temperature with
  | .error e => .error (.http 500 e)
  | .ok result => normalizeInsight req.model result

/-- The `/analyze-file` route handler. The `model` enum check embeds the
`Literal["gpt-4o", "gpt-4o-mini"]` parameter annotation (enforced by the
framework before the body runs); `prompt` and `temperature` are plain
`str`/`float` parameters there, so they carry no further validation. -/
def analyze_file (content : List Nat) (content_type : Option String)
    (prompt model : String) (temperature : ℚ)
    (upstream : String → String → String → ℚ → Except String ChatResult) :
    Except RouteError ImageInsightResponse :=
  if ¬ (model = "gpt-4o" ∨ model = "gpt-4o-mini") then
    .error (.validation "model: Input should be gpt-4o or gpt-4o-mini")
  else
    match ingest content content_type with
    | .error e => .error e
    | .ok (_ext, url) =>
      match upstream model prompt url temperature with
      | .error e => .error (.http 500 e)
      | .ok result => normalizeInsight model result

/-! ## Detection lemmas -/

theorem prefix_head_ne {a b : Nat} {as bs data : List Nat} (hab : a ≠ b)
    (ha : (a :: as) <+: data) (hb : (b :: bs) <+: data) : False := by
  obtain ⟨t, rfl⟩ := ha
  rw [List.cons_append, List.cons_prefix_cons] at hb
  exact hab hb.1.symm

theorem detect_jpeg {data : List Nat} (h : jpegSig <+: data) :
    detect_image_type data = some "jpeg" := by
  simp [detect_image_type, h]

theorem detect_png {data : List Nat} (h : pngSig <+: data) :
    detect_image_type data = some "png" := by
  have hj : ¬ jpegSig <+: data := fun hj =>
    prefix_head_ne (show (0xff : Nat) ≠ 0x89 by decide)
      (by simpa [jpegSig] using hj) (by simpa [pngSig] using h)
  simp [detect_image_type, hj, h]

theorem detect_webp {data : List Nat} (h : riffSig <+: data)
    (hw : (data.drop 8).take 4 = webpTag) :
    detect_image_type data = some "webp" := by
  have hj : ¬ jpegSig <+: data := fun hj =>
    prefix_head_ne (show (0xff : Nat) ≠ 0x52 by decide)
      (by simpa [jpegSig] using hj) (by simpa [riffSig] using h)
  have hp : ¬ pngSig <+: data := fun hp =>
    prefix_head_ne (show (0x89 : Nat) ≠ 0x52 by decide)
      (by simpa [pngSig] using hp) (by simpa [riffSig] using h)
  simp [detect_image_type, hj, hp, h, hw]

theorem detect_of_no_sig {data : List Nat} (hj : ¬ jpegSig <+: data)
    (hp : ¬ pngSig <+: data)
    (hw : ¬ (riffSig <+: data ∧ (data.drop 8).take 4 = webpTag)) :
    detect_image_type data = none := by
  simp only [detect_image_type, if_neg hj, if_neg hp, if_neg hw]

theorem detect_cases (data : List Nat) :
    detect_image_type data = some "jpeg" ∨
      detect_image_type data = some "png" ∨
        detect_image_type data = some "webp" ∨
          detect_image_type data = none := by
  unfold detect_image_type
  split_ifs <;> simp

theorem detect_mem {data : List Nat} {d : String}
    (h : detect_image_type data = some d) :
    d = "jpeg" ∨ d = "png" ∨ d = "webp" := by
  unfold detect_image_type at h
  split_ifs at h <;> simp_all

/-! ## Ingestion lemmas -/

theorem ingest_too_large {data : List Nat} {ct : Option String}
    (h : MAX_BYTES < data.length) :
    ingest data ct = .error (.http 413 "Image too large (max 5MB).") := by
  unfold ingest
  rw [if_pos h]

theorem ingest_detected {data : List Nat} {ct : Option String} {d : String}
    (hlen : data.length ≤ MAX_BYTES) (hdet : detect_image_type data = some d) :
    ingest data ct = .ok (d, data_url d data) := by
  have hd := detect_mem hdet
  unfold ingest
  rw [if_neg (by omega)]
  simp only [hdet]
  rw [if_pos hd]

theorem ingest_fallback_ok {data : List Nat} {ct : Option String} {e : String}
    (hlen : data.length ≤ MAX_BYTES) (hdet : detect_image_type data = none)
    (he : ok_types (pyLower (ct.getD "")) = some e) :
    ingest data ct = .ok (e, data_url e data) := by
  have hmem : e = "jpeg" ∨ e = "png" ∨ e = "webp" := by
    unfold ok_types at he
    split_ifs at he <;> simp_all
  unfold ingest
  rw [if_neg (by omega)]
  simp only [hdet, he]
  rw [if_pos hmem]

theorem ingest_fallback_err {data : List Nat} {ct : Option String}
    (hlen : data.length ≤ MAX_BYTES) (hdet : detect_image_type data = none)
    (he : ok_types (pyLower (ct.getD "")) = none) :
    ingest data ct =
      .error (.http 415 "Unsupported image type. Use jpg, png, or webp.") := by
  unfold ingest
  rw [if_neg (by omega)]
  simp only [hdet, he]

theorem ingest_ok_inv {content : List Nat} {content_type : Option String}
    {ext url : String}
    (h : ingest content content_type = .ok (ext, url)) :
    url = data_url ext content ∧
      (∀ d, detect_image_type content = some d → ext = d) := by
  unfold ingest at h
  split_ifs at h
  rcases hd : detect_image_type content with _ | d
  · rcases he : ok_types (pyLower (content_type.getD "")) with _ | e
    · simp only [hd, he] at h
      cases h
    · simp only [hd, he] at h
      split_ifs at h
      injection h with h'
      cases h'
      refine ⟨rfl, fun d hdd => ?_⟩
      cases hdd
  · simp only [hd] at h
    split_ifs at h
    injection h with h'
    cases h'
    refine ⟨rfl, fun d' hdd => ?_⟩
    exact Option.some.inj hdd

/-! ## Claims -/

/-- C1: Image format detection is deterministic and checks magic-byte
signatures in a fixed order with first match winning (`FF D8 FF` → jpeg,
the 8-byte PNG signature → png, `RIFF` at offset 0 plus `WEBP` at offset 8
→ webp); a buffer carrying a recognized signature is classified by that
signature regardless of the declared content type, and only a buffer with
no recognized signature falls back to a case-insensitive match of the
declared media type against `image/jpeg`, `image/png`, `image/webp`,
failing with HTTP 415 when that also resolves to none of the three. -/
theorem C1_format_detection (data : List Nat) (ct : String)
    (hlen : data.length ≤ MAX_BYTES) :
    (jpegSig <+: data → detect_image_type data = some "jpeg") ∧
    (pngSig <+: data → detect_image_type data = some "png") ∧
    (riffSig <+: data → (data.drop 8).take 4 = webpTag →
      detect_image_type data = some "webp") ∧
    (∀ d, detect_image_type data = some d →
      ingest data (some ct) = .ok (d, data_url d data)) ∧
    (detect_image_type data = none →
      (pyLower ct = "image/jpeg" →
        ingest data (some ct) = .ok ("jpeg", data_url "jpeg" data)) ∧
      (pyLower ct = "image/png" →
        ingest data (some ct) = .ok ("png", data_url "png" data)) ∧
      (pyLower ct = "image/webp" →
        ingest data (some ct) = .ok ("webp", data_url "webp" data)) ∧
      (pyLower ct ≠ "image/jpeg" → pyLower ct ≠ "image/png" →
        pyLower ct ≠ "image/webp" →
        ingest data (some ct) =
          .error (.http 415 "Unsupported image type. Use jpg, png, or webp."))) := by
  refine ⟨detect_jpeg, detect_png, detect_webp,
    fun d hd => ingest_detected hlen hd, fun hnone => ⟨?_, ?_, ?_, ?_⟩⟩
  · intro h1
    exact ingest_fallback_ok hlen hnone (by simp [ok_types, h1])
  · intro h1
    exact ingest_fallback_ok hlen hnone (by simp [ok_types, h1])
  · intro h1
    exact ingest_fallback_ok hlen hnone (by simp [ok_types, h1])
  · intro h1 h2 h3
    refine ingest_fallback_err hlen hnone ?_
    simp only [Option.getD_some, ok_types, if_neg h1, if_neg h2, if_neg h3]

/-- C1 witness: the PNG signature itself, declared as `IMAGE/JPEG`, is
still classified png. -/
theorem C1_witness :
    detect_image_type pngSig = some "png" ∧
      ingest pngSig (some "IMAGE/JPEG") = .ok ("png", data_url "png" pngSig) := by
  have h := C1_format_detection pngSig "IMAGE/JPEG" (by decide)
  have hp : pngSig <+: pngSig := List.prefix_refl _
  exact ⟨h.2.1 hp, h.2.2.2.1 "png" (h.2.1 hp)⟩

/-- C4: byte buffers of length at least 5,242,881 are rejected with HTTP
413, whatever their bytes and declared content type, and the `/analyze-file`
route returns that error for every upstream stub — so no detection,
encoding, or upstream call affects the outcome. -/
theorem C4_payload_too_large :
    (∀ (content : List Nat) (content_type : Option String),
        5242881 ≤ content.length →
        ingest content content_type =
          .error (.http 413 "Image too large (max 5MB).")) ∧
    (∀ (content : List Nat) (content_type : Option String)
        (prompt model : String) (temperature : ℚ)
        (upstream : String → String → String → ℚ → Except String ChatResult),
        (model = "gpt-4o" ∨ model = "gpt-4o-mini") →
        5242881 ≤ content.length →
        analyze_file content content_type prompt model temperature upstream =
          .error (.http 413 "Image too large (max 5MB).")) := by
  constructor
  · intro content ct hlen
    exact ingest_too_large (by simp only [MAX_BYTES]; omega)
  · intro content ct prompt model temp upstream hm hlen
    unfold analyze_file
    rw [if_neg (not_not_intro hm),
      ingest_too_large (by simp only [MAX_BYTES]; omega)]

/-- C4 witness: a 5,242,881-byte zero buffer is rejected with 413 at both
the ingestion layer and the route. -/
theorem C4_witness :
    ingest (List.replicate 5242881 0) none =
        .error (.http 413 "Image too large (max 5MB).") ∧
      analyze_file (List.replicate 5242881 0) none "hi" "gpt-4o-mini" 0
          (fun _ _ _ _ => .error "unreachable") =
        .error (.http 413 "Image too large (max 5MB).") := by
  have hlen : 5242881 ≤ (List.replicate 5242881 (0 : Nat)).length := by
    rw [List.length_replicate]
  exact ⟨C4_payload_too_large.1 _ _ hlen,
    C4_payload_too_large.2 _ _ _ _ _ _ (Or.inr rfl) hlen⟩

/-- C6: every accepted buffer produces the data URL
`data:image/<format>;base64,<base64-of-bytes>`, where the format is the
detected one whenever magic-byte detection succeeded, and base64-decoding
the encoded portion returns the original bytes. -/
theorem C6_data_url_roundtrip (content : List Nat)
    (content_type : Option String) (ext url : String)
    (hbytes : ∀ x ∈ content, x < 256)
    (hok : ingest content content_type = .ok (ext, url)) :
    url = "data:image/" ++ ext ++ ";base64," ++ b64encode content ∧
      b64decodeChars (b64encodeChars content) = some content ∧
      ∀ d, detect_image_type content = some d → ext = d := by
  obtain ⟨hurl, hdet⟩ := ingest_ok_inv hok
  exact ⟨hurl, b64decode_b64encode content hbytes, hdet⟩

/-- C6 witness: the three JPEG magic bytes encode to
`data:image/jpeg;base64,/9j/` and decode back to themselves. -/
theorem C6_witness :
    "data:image/jpeg;base64,/9j/" =
        "data:image/" ++ "jpeg" ++ ";base64," ++ b64encode [0xff, 0xd8, 0xff] ∧
      b64decodeChars (b64encodeChars [0xff, 0xd8, 0xff]) =
        some [0xff, 0xd8, 0xff] ∧
      ∀ d, detect_image_type [0xff, 0xd8, 0xff] = some d → "jpeg" = d :=
  C6_data_url_roundtrip [0xff, 0xd8, 0xff] none "jpeg"
    "data:image/jpeg;base64,/9j/" (by decide) (by rfl)

/-- C10: magic-byte detection is total — it returns jpeg, png, webp, or
no format — and a buffer beginning with `RIFF` but shorter than 12 bytes
is not an error: the offset-8 comparison fails, detection returns none,
and classification falls through to the declared-content-type fallback. -/
theorem C10_detect_total (data : List Nat) :
    (detect_image_type data = some "jpeg" ∨
      detect_image_type data = some "png" ∨
        detect_image_type data = some "webp" ∨
          detect_image_type data = none) ∧
    (riffSig <+: data → data.length < 12 →
      detect_image_type data = none ∧
        ∀ (ct : Option String) (e : String),
          ok_types (pyLower (ct.getD "")) = some e →
          ingest data ct = .ok (e, data_url e data)) := by
  refine ⟨detect_cases data, fun hr hlen => ?_⟩
  have hj : ¬ jpegSig <+: data := fun hj =>
    prefix_head_ne (show (0xff : Nat) ≠ 0x52 by decide)
      (by simpa [jpegSig] using hj) (by simpa [riffSig] using hr)
  have hp : ¬ pngSig <+: data := fun hp =>
    prefix_head_ne (show (0x89 : Nat) ≠ 0x52 by decide)
      (by simpa [pngSig] using hp) (by simpa [riffSig] using hr)
  have hw : ¬ (riffSig <+: data ∧ (data.drop 8).take 4 = webpTag) := by
    rintro ⟨-, hw⟩
    have hl := congrArg List.length hw
    simp [webpTag] at hl
    omega
  have hnone := detect_of_no_sig hj hp hw
  exact ⟨hnone, fun ct e he =>
    ingest_fallback_ok (by simp only [MAX_BYTES]; omega) hnone he⟩

/-- C10 witness: the bare 4-byte buffer `RIFF` detects as no format and,
declared `image/png`, classifies as png through the fallback. -/
theorem C10_witness :
    detect_image_type riffSig = none ∧
      ingest riffSig (some "image/png") =
        .ok ("png", data_url "png" riffSig) := by
  have h := (C10_detect_total riffSig).2 (List.prefix_refl _) (by decide)
  exact ⟨h.1, h.2 (some "image/png") "png" (by decide)⟩

/-! ## Normalization lemmas -/

theorem validate_ok_shape {s : String} {ents : List DetectedEntity}
    {ti : Option String} {mu : String} {tu : Option Int}
    {resp : ImageInsightResponse}
    (h : ImageInsightResponse.validate s ents ti mu tu = .ok resp) :
    resp = ⟨s, ents, ti, mu, tu⟩ := by
  unfold ImageInsightResponse.validate at h
  split_ifs at h
  exact (Except.ok.inj h).symm

theorem normalizeInsight_ok_inv {model : String} {result : ChatResult}
    {resp : ImageInsightResponse}
    (h : normalizeInsight model result = .ok resp) :
    (∃ c rest, result.choices = c :: rest ∧ resp.summary = c.content) ∧
      resp.tokens_used = result.usage.map (fun u => u.total_tokens) ∧
      resp.entities = [] ∧ resp.text_in_image = none ∧
      resp.model_used = model := by
  unfold normalizeInsight at h
  rcases hf : firstChoiceContent result with e | message
  · rw [hf] at h
    cases h
  · rw [hf] at h
    dsimp only at h
    rcases hv : ImageInsightResponse.validate message [] none model
        (usageTokens result) with err | r
    · rw [hv] at h
      cases err <;> simp at h
    · rw [hv] at h
      dsimp only at h
      cases h
      have hshape := validate_ok_shape hv
      subst hshape
      unfold firstChoiceContent at hf
      rcases hc : result.choices with _ | ⟨c, rest⟩
      · rw [hc] at hf
        cases hf
      · rw [hc] at hf
        injection hf with hm
        exact ⟨⟨c, rest, rfl, hm.symm⟩, rfl, rfl, rfl, rfl⟩

/-- C5: every successfully constructed `ImageInsightResponse` has at least
one of `summary` or `text_in_image` non-empty; construction with
`summary=""` and `text_in_image=None` fails, while construction with
`summary="ok"` succeeds. -/
theorem C5_response_invariant :
    (∀ (s : String) (ents : List DetectedEntity) (ti : Option String)
        (mu : String) (tu : Option Int) (resp : ImageInsightResponse),
        ImageInsightResponse.validate s ents ti mu tu = .ok resp →
        resp.summary ≠ "" ∨ ∃ t, resp.text_in_image = some t ∧ t ≠ "") ∧
    (∃ msg, ImageInsightResponse.validate "" [] none "gpt-4o-mini" none =
        .error (.validation msg)) ∧
    ImageInsightResponse.validate "ok" [] none "gpt-4o-mini" none =
      .ok ⟨"ok", [], none, "gpt-4o-mini", none⟩ := by
  refine ⟨?_, ⟨_, by rfl⟩, by rfl⟩
  intro s ents ti mu tu resp h
  unfold ImageInsightResponse.validate at h
  split_ifs at h with h1 h2 h3
  injection h with h'
  cases h'
  rcases ti with _ | t
  · left
    intro hs
    subst hs
    exact absurd h3 (by decide)
  · simp only [has_content, Bool.or_eq_true, bne_iff_ne] at h3
    rcases h3 with h4 | h4
    · left
      intro hs
      subst hs
      exact h4 (by decide)
    · right
      refine ⟨t, rfl, fun ht => ?_⟩
      subst ht
      exact h4 (by decide)

/-- C5 witness: the invariant instantiated at the successful
`summary="ok"` construction. -/
theorem C5_witness :
    (⟨"ok", [], none, "gpt-4o-mini", none⟩ : ImageInsightResponse).summary ≠ ""
      ∨ ∃ t, (⟨"ok", [], none, "gpt-4o-mini", none⟩ :
          ImageInsightResponse).text_in_image = some t ∧ t ≠ "" :=
  C5_response_invariant.1 "ok" [] none "gpt-4o-mini" none _ (by rfl)

/-- C7: on the image routes, every successful upstream result that
normalizes into a response yields: `summary` is the first choice's message
text, `tokens_used` is the upstream-reported total when present and null
otherwise, `entities` is empty, `text_in_image` is null, and `model_used`
echoes the request's resolved model. -/
theorem C7_normalization :
    (∀ (req : ImageUrlPayload) (result : ChatResult)
        (resp : ImageInsightResponse),
        analyze_image req (fun _ _ _ _ => .ok result) = .ok resp →
        (∃ c rest, result.choices = c :: rest ∧ resp.summary = c.content) ∧
          resp.tokens_used = result.usage.map (fun u => u.total_tokens) ∧
          resp.entities = [] ∧ resp.text_in_image = none ∧
          resp.model_used = req.model) ∧
    (∀ (content : List Nat) (content_type : Option String)
        (prompt model : String) (temperature : ℚ) (result : ChatResult)
        (resp : ImageInsightResponse),
        analyze_file content content_type prompt model temperature
            (fun _ _ _ _ => .ok result) = .ok resp →
        (∃ c rest, result.choices = c :: rest ∧ resp.summary = c.content) ∧
          resp.tokens_used = result.usage.map (fun u => u.total_tokens) ∧
          resp.entities = [] ∧ resp.text_in_image = none ∧
          resp.model_used = model) := by
  constructor
  · intro req result resp h
    exact normalizeInsight_ok_inv h
  · intro content ct prompt model temp result resp h
    unfold analyze_file at h
    split_ifs at h
    rcases hi : ingest content ct with e | ⟨ext, url⟩
    · rw [hi] at h
      cases h
    · rw [hi] at h
      exact normalizeInsight_ok_inv h

/-- C7 witness: a concrete upstream result with one choice and reported
usage, normalized on the `/analyze-image` route. -/
theorem C7_witness :
    (∃ c rest, ({ choices := [⟨"hi there"⟩], usage := some ⟨5⟩ } :
          ChatResult).choices = c :: rest ∧
        (⟨"hi there", [], none, "gpt-4o", some 5⟩ :
          ImageInsightResponse).summary = c.content) ∧
      (⟨"hi there", [], none, "gpt-4o", some 5⟩ :
          ImageInsightResponse).tokens_used =
        ({ choices := [⟨"hi there"⟩], usage := some ⟨5⟩ } :
          ChatResult).usage.map (fun u => u.total_tokens) ∧
      (⟨"hi there", [], none, "gpt-4o", some 5⟩ :
          ImageInsightResponse).entities = [] ∧
      (⟨"hi there", [], none, "gpt-4o", some 5⟩ :
          ImageInsightResponse).text_in_image = none ∧
      (⟨"hi there", [], none, "gpt-4o", some 5⟩ :
          ImageInsightResponse).model_used =
        (⟨"https://example.com/a.png", "hi", "gpt-4o", 0⟩ :
          ImageUrlPayload).model :=
  C7_normalization.1 ⟨"https://example.com/a.png", "hi", "gpt-4o", 0⟩
    { choices := [⟨"hi there"⟩], usage := some ⟨5⟩ }
    ⟨"hi there", [], none, "gpt-4o", some 5⟩ (by rfl)

/-- C9: on all three analysis routes, an upstream exception is caught at
the call site and mapped to HTTP 500 with the underlying error message as
detail; a fault while reading the result (an empty `choices` list) is
likewise caught and mapped to 500. No other outcome is produced. -/
theorem C9_upstream_errors :
    (∀ (req : PromptRequest) (e : String),
        analyze req (fun _ _ _ => .error e) = .error (.http 500 e)) ∧
    (∀ (req : ImageUrlPayload) (e : String),
        analyze_image req (fun _ _ _ _ => .error e) = .error (.http 500 e)) ∧
    (∀ (content : List Nat) (content_type : Option String)
        (prompt model : String) (temperature : ℚ) (e ext url : String),
        (model = "gpt-4o" ∨ model = "gpt-4o-mini") →
        ingest content content_type = .ok (ext, url) →
        analyze_file content content_type prompt model temperature
            (fun _ _ _ _ => .error e) = .error (.http 500 e)) ∧
    (∀ (req : ImageUrlPayload) (result : ChatResult),
        result.choices = [] →
        analyze_image req (fun _ _ _ _ => .ok result) =
          .error (.http 500 "list index out of range")) := by
  refine ⟨fun req e => rfl, fun req e => rfl, ?_, ?_⟩
  · intro content ct prompt model temp e ext url hm hi
    unfold analyze_file
    rw [if_neg (not_not_intro hm), hi]
  · intro req result hc
    unfold analyze_image normalizeInsight firstChoiceContent
    dsimp only
    rw [hc]

/-- C9 witness: concrete upstream failures on each route. -/
theorem C9_witness :
    analyze ⟨"hello", "gpt-4o-mini", 1⟩ (fun _ _ _ => .error "boom") =
        .error (.http 500 "boom") ∧
      analyze_image ⟨"https://example.com/a.png", "hi", "gpt-4o", 1⟩
          (fun _ _ _ _ => .error "down") = .error (.http 500 "down") ∧
      analyze_file [0xff, 0xd8, 0xff] (some "image/jpeg") "hi" "gpt-4o-mini" 1
          (fun _ _ _ _ => .error "reset") = .error (.http 500 "reset") ∧
      analyze_image ⟨"https://example.com/a.png", "hi", "gpt-4o", 1⟩
          (fun _ _ _ _ => .ok ⟨[], none⟩) =
        .error (.http 500 "list index out of range") :=
  ⟨C9_upstream_errors.1 ⟨"hello", "gpt-4o-mini", 1⟩ "boom",
    C9_upstream_errors.2.1 ⟨"https://example.com/a.png", "hi", "gpt-4o", 1⟩
      "down",
    C9_upstream_errors.2.2.1 [0xff, 0xd8, 0xff] (some "image/jpeg") "hi"
      "gpt-4o-mini" 1 "reset" "jpeg"
      (data_url "jpeg" [0xff, 0xd8, 0xff]) (Or.inr rfl) (by rfl),
    C9_upstream_errors.2.2.2 ⟨"https://example.com/a.png", "hi", "gpt-4o", 1⟩
      ⟨[], none⟩ rfl⟩

/-- C2 counterexample: `PromptRequest` — the plain-prompt payload kind —
accepts the empty prompt: construction succeeds instead of failing with a
ValidationError. -/
theorem C2_counterexample :
    PromptRequest.validate "" "gpt-4o-mini" 1 =
      .ok ⟨"", "gpt-4o-mini", 1⟩ := by
  rfl

/-- C2 amended: the image payload models reject empty or whitespace-only
prompts regardless of the other fields, but the plain-prompt
`PromptRequest` performs no prompt validation, and the `/analyze-file`
route's `prompt` parameter is likewise unvalidated: an empty prompt
proceeds to the upstream call. -/
theorem C2_amended :
    (∀ (url prompt model : String) (temperature : ℚ),
        pyStrip prompt = "" →
        ∃ msg, ImageUrlPayload.validate url prompt model temperature =
          .error (.validation msg)) ∧
    (∀ (prompt model : String) (temperature : ℚ),
        pyStrip prompt = "" →
        ∃ msg, ImageFilePayload.validate prompt model temperature =
          .error (.validation msg)) ∧
    (∀ (prompt model : String) (temperature : ℚ),
        (model = "gpt-4o-mini" ∨ model = "gpt-4-turbo") →
        0 ≤ temperature → temperature ≤ 1 →
        PromptRequest.validate prompt model temperature =
          .ok ⟨prompt, model, temperature⟩) ∧
    (∀ (content : List Nat) (content_type : Option String) (model : String)
        (temperature : ℚ) (ext url : String)
        (upstream : String → String → String → ℚ → Except String ChatResult),
        (model = "gpt-4o" ∨ model = "gpt-4o-mini") →
        ingest content content_type = .ok (ext, url) →
        analyze_file content content_type "" model temperature upstream =
          (match upstream model "" url temperature with
           | .error e => .error (.http 500 e)
           | .ok result => normalizeInsight model result)) := by
  refine ⟨?_, ?_, ?_, ?_⟩
  · intro url prompt model temp hp
    unfold ImageUrlPayload.validate
    split_ifs <;> exact ⟨_, rfl⟩
  · intro prompt model temp hp
    unfold ImageFilePayload.validate
    split_ifs <;> exact ⟨_, rfl⟩
  · intro prompt model temp hm h0 h1
    unfold PromptRequest.validate
    rw [if_neg (not_not_intro hm), if_neg (not_not_intro ⟨h0, h1⟩)]
  · intro content ct model temp ext url upstream hm hi
    unfold analyze_file
    rw [if_neg (not_not_intro hm), hi]

/-- C2 witness: whitespace prompts rejected by the image payload models;
an empty prompt accepted by `PromptRequest` and by the file route. -/
theorem C2_witness :
    (∃ msg, ImageUrlPayload.validate "https://example.com/a.png" " "
        "gpt-4o" 1 = .error (.validation msg)) ∧
      (∃ msg, ImageFilePayload.validate " " "gpt-4o" 1 =
        .error (.validation msg)) ∧
      PromptRequest.validate "" "gpt-4o-mini" 1 =
        .ok ⟨"", "gpt-4o-mini", 1⟩ ∧
      analyze_file [0xff, 0xd8, 0xff] (some "image/jpeg") "" "gpt-4o-mini" 1
          (fun _ _ _ _ => .ok ⟨[⟨"ok"⟩], none⟩) =
        .ok ⟨"ok", [], none, "gpt-4o-mini", none⟩ := by
  refine ⟨C2_amended.1 "https://example.com/a.png" " " "gpt-4o" 1 (by decide),
    C2_amended.2.1 " " "gpt-4o" 1 (by decide),
    C2_amended.2.2.1 "" "gpt-4o-mini" 1 (Or.inl rfl) (by decide) (by decide),
    ?_⟩
  rw [C2_amended.2.2.2 [0xff, 0xd8, 0xff] (some "image/jpeg") "gpt-4o-mini" 1
    "jpeg" (data_url "jpeg" [0xff, 0xd8, 0xff]) _ (Or.inr rfl) (by rfl)]
  rfl

/-- C3 counterexample: the `/analyze-file` payload kind performs no
temperature range check — with temperature 2 the request is not rejected
with a ValidationError; it reaches the upstream call, which observes
temperature 2, and the route succeeds. -/
theorem C3_counterexample :
    analyze_file [0xff, 0xd8, 0xff] (some "image/jpeg") "hi" "gpt-4o-mini" 2
        (fun _ _ _ t =>
          if t = 2 then .ok ⟨[⟨"seen"⟩], some ⟨7⟩⟩
          else .error "not called with 2") =
      .ok ⟨"seen", [], none, "gpt-4o-mini", some 7⟩ := by
  rfl

/-- C3 amended: `PromptRequest`, `ImageUrlPayload` and `ImageFilePayload`
reject temperatures outside [0,1] with a ValidationError before any
upstream call, but the `/analyze-file` route's `temperature` parameter
carries no range check: every temperature is passed through to the
upstream call unchanged. -/
theorem C3_amended :
    (∀ (prompt model : String) (temperature : ℚ),
        temperature < 0 ∨ 1 < temperature →
        ∃ msg, PromptRequest.validate prompt model temperature =
          .error (.validation msg)) ∧
    (∀ (url prompt model : String) (temperature : ℚ),
        temperature < 0 ∨ 1 < temperature →
        ∃ msg, ImageUrlPayload.validate url prompt model temperature =
          .error (.validation msg)) ∧
    (∀ (prompt model : String) (temperature : ℚ),
        temperature < 0 ∨ 1 < temperature →
        ∃ msg, ImageFilePayload.validate prompt model temperature =
          .error (.validation msg)) ∧
    (∀ (content : List Nat) (content_type : Option String)
        (prompt model : String) (temperature : ℚ) (ext url : String)
        (upstream : String → String → String → ℚ → Except String ChatResult),
        (model = "gpt-4o" ∨ model = "gpt-4o-mini") →
        ingest content content_type = .ok (ext, url) →
        analyze_file content content_type prompt model temperature upstream =
          (match upstream model prompt url temperature with
           | .error e => .error (.http 500 e)
           | .ok result => normalizeInsight model result)) := by
  have hrange : ∀ t : ℚ, t < 0 ∨ 1 < t → ¬ (0 ≤ t ∧ t ≤ 1) := by
    rintro t (h | h) ⟨h0, h1⟩
    · exact absurd h0 (not_le.mpr h)
    · exact absurd h1 (not_le.mpr h)
  refine ⟨?_, ?_, ?_, ?_⟩
  · intro prompt model temp ht
    unfold PromptRequest.validate
    split_ifs <;> first
      | exact ⟨_, rfl⟩
      | (rename_i h1 h2; exact absurd h2 (hrange temp ht))
  · intro url prompt model temp ht
    unfold ImageUrlPayload.validate
    split_ifs <;> first
      | exact ⟨_, rfl⟩
      | (rename_i h1 h2 h3 h4 h5; exact absurd h5 (hrange temp ht))
  · intro prompt model temp ht
    unfold ImageFilePayload.validate
    split_ifs <;> first
      | exact ⟨_, rfl⟩
      | (rename_i h1 h2 h3 h4; exact absurd h4 (hrange temp ht))
  · intro content ct prompt model temp ext url upstream hm hi
    unfold analyze_file
    rw [if_neg (not_not_intro hm), hi]

/-- C3 witness: out-of-range temperatures rejected by the three payload
models; the file route forwards temperature 2 to the upstream stub. -/
theorem C3_witness :
    (∃ msg, PromptRequest.validate "hi" "gpt-4o-mini" 2 =
        .error (.validation msg)) ∧
      (∃ msg, ImageUrlPayload.validate "https://example.com/a.png" "hi"
          "gpt-4o" 2 = .error (.validation msg)) ∧
      (∃ msg, ImageFilePayload.validate "hi" "gpt-4o" 2 =
        .error (.validation msg)) ∧
      analyze_file [0xff, 0xd8, 0xff] (some "image/jpeg") "hi" "gpt-4o" 2
          (fun _ _ _ _ => .ok ⟨[⟨"ok"⟩], none⟩) =
        .ok ⟨"ok", [], none, "gpt-4o", none⟩ := by
  refine ⟨C3_amended.1 "hi" "gpt-4o-mini" 2 (Or.inr (by decide)),
    C3_amended.2.1 "https://example.com/a.png" "hi" "gpt-4o" 2
      (Or.inr (by decide)),
    C3_amended.2.2.1 "hi" "gpt-4o" 2 (Or.inr (by decide)), ?_⟩
  rw [C3_amended.2.2.2 [0xff, 0xd8, 0xff] (some "image/jpeg") "hi" "gpt-4o" 2
    "jpeg" (data_url "jpeg" [0xff, 0xd8, 0xff]) _ (Or.inl rfl) (by rfl)]
  rfl

/-- C8 counterexample: an http (non-https) URL is accepted by
`ImageUrlPayload` construction, so construction does not fail on every
image_url that is not an https URL. -/
theorem C8_counterexample :
    ImageUrlPayload.validate "http://example.com/cat.png" "hi" "gpt-4o" 1 =
      .ok ⟨"http://example.com/cat.png", "hi", "gpt-4o", 1⟩ := by
  rfl

/-- C8 amended: `ImageUrlPayload` construction fails with a
ValidationError whenever `image_url` is not a well-formed http-or-https
URL, and every accepted payload's `image_url` has scheme http or https —
the validator does not restrict the scheme to https alone. -/
theorem C8_amended :
    (∀ (url prompt model : String) (temperature : ℚ),
        isAnyHttpUrl url = false →
        ∃ msg, ImageUrlPayload.validate url prompt model temperature =
          .error (.validation msg)) ∧
    (∀ (url prompt model : String) (temperature : ℚ)
        (payload : ImageUrlPayload),
        ImageUrlPayload.validate url prompt model temperature = .ok payload →
        "http://".data <+: payload.image_url.data ∨
          "https://".data <+: payload.image_url.data) := by
  constructor
  · intro url prompt model temp hfalse
    unfold ImageUrlPayload.validate
    rw [if_pos (by simp [hfalse])]
    exact ⟨_, rfl⟩
  · intro url prompt model temp payload h
    unfold ImageUrlPayload.validate at h
    split_ifs at h with h1 h2 h3 h4 h5
    injection h with h'
    cases h'
    simp only [isAnyHttpUrl, Bool.or_eq_true, Bool.and_eq_true] at h1
    rcases h1 with ⟨hpre, -⟩ | ⟨hpre, -⟩
    · exact Or.inl (List.isPrefixOf_iff_prefix.mp hpre)
    · exact Or.inr (List.isPrefixOf_iff_prefix.mp hpre)

/-- C8 witness: an ftp URL is rejected; the accepted http URL from the
counterexample input indeed carries an http scheme. -/
theorem C8_witness :
    (∃ msg, ImageUrlPayload.validate "ftp://example.com/cat.png" "hi"
        "gpt-4o" 1 = .error (.validation msg)) ∧
      ("http://".data <+:
          (⟨"http://example.com/cat.png", "hi", "gpt-4o", 1⟩ :
            ImageUrlPayload).image_url.data ∨
        "https://".data <+:
          (⟨"http://example.com/cat.png", "hi", "gpt-4o", 1⟩ :
            ImageUrlPayload).image_url.data) :=
  ⟨C8_amended.1 "ftp://example.com/cat.png" "hi" "gpt-4o" 1 (by decide),
    C8_amended.2 "http://example.com/cat.png" "hi" "gpt-4o" 1
      ⟨"http://example.com/cat.png", "hi", "gpt-4o", 1⟩ (by rfl)⟩

end AIInsight
